import Mathlib

/-!
Verification of the reservation-booking agent's core logic, shallowly
embedded from the Python source under src/.  Database rows become Lean
structures, a database snapshot becomes lists of rows, and each transaction
of the source becomes a pure function from snapshot to snapshot.  Wall-clock
instants are modelled as integer UTC seconds.
-/

/-- Row of `reservation_requests` (src/models.py, ReservationRequest).
Timestamps `created_at` and `updated_at` are store bookkeeping that no claim
touches and are omitted.  `booking_open_time` is an instant in UTC seconds;
a Python `datetime` object is always truthy, so the source's truthiness test
on it corresponds to `Option.isSome`. -/
structure RequestR where
  id : Nat
  restaurant_name : String
  date : String
  time : String
  party_size : Nat
  contact_email : String
  status : String
  venue_id : Option String
  booking_open_time : Option Int
  poll_attempts : Nat
  max_poll_duration_secs : Nat
  platform : Option String
deriving DecidableEq

/-- Row of `notification_subscriptions` (src/models.py, NotificationSubscription). -/
structure SubscriptionR where
  id : Nat
  request_id : Nat
  platform : String
  active : Bool
  search_date : String
  search_time : String
  search_party_size : Nat
  restaurant_name : String
  venue_id : Option String
deriving DecidableEq

/-- Row of `bookings` (src/models.py, Booking). -/
structure BookingR where
  request_id : Nat
  platform : String
  confirmation_id : Option String
  restaurant_name : String
  date : String
  time : String
  party_size : Nat
  status : String
  raw_response : String
deriving DecidableEq

/-- Row of `activity_log` (src/models.py, ActivityLog); the `details` JSON
blob is kept as an opaque optional string. -/
structure LogEntry where
  request_id : Option Nat
  action : String
  platform : Option String
  details : Option String
deriving DecidableEq

/-- A snapshot of the four tables. -/
structure DB where
  requests : List RequestR
  subscriptions : List SubscriptionR
  bookings : List BookingR
  logs : List LogEntry
deriving DecidableEq

/-- `session.get(ReservationRequest, request_id)`. -/
def getRequest (db : DB) (rid : Nat) : Option RequestR :=
  db.requests.find? (fun r => r.id == rid)

/-- Committing a mutation of the request row with id `rid`. -/
def setRequest (db : DB) (rid : Nat) (req : RequestR) : DB :=
  { db with requests := db.requests.map (fun r => if r.id == rid then req else r) }

/-- `_log` (src/services/orchestrator.py lines 18-26): append an ActivityLog row. -/
def appendLog (db : DB) (e : LogEntry) : DB :=
  { db with logs := db.logs ++ [e] }

/-- `session.add(booking)`: append a Booking row. -/
def addBooking (db : DB) (b : BookingR) : DB :=
  { db with bookings := db.bookings ++ [b] }

/-- Deactivating every subscription of a request
(src/services/notification_handler.py lines 86-93, src/routers/reservations.py lines 100-101). -/
def deactivateSubscriptions (db : DB) (rid : Nat) : DB :=
  { db with subscriptions :=
      db.subscriptions.map (fun s => if s.request_id == rid then { s with active := false } else s) }

/-- Result dict of `resy_service.search_and_book` / `book_slot` as consumed by
the orchestrator: the `success` flag and the fields the commit reads.
`none` stands for a key that is absent or holds JSON null. -/
structure BookOutcome where
  success : Bool
  resy_token : Option String
  reservation_id : Option String
  booked_time : Option String
  raw : String
deriving DecidableEq

/-- Python `a.get(k) or a.get(k2)`: the first operand wins unless it is
missing or the empty string (both falsy). -/
def pyOrStr (a b : Option String) : Option String :=
  match a with
  | some s => if s = "" then b else some s
  | none => b

/-- The booking-commit transaction of `_try_resy`
(src/services/orchestrator.py lines 188-214): reload the request; on a
successful adapter result set status to booked and platform to resy, insert
a confirmed Booking row and a `resy_booked` log, and report success;
otherwise append a `resy_unavailable` log and report failure.  The adapter
call itself (lines 181-186) happens outside any transaction and its outcome
is passed in as `result`. -/
def try_resy_commit (db : DB) (rid : Nat) (result : BookOutcome) : DB × Bool :=
  match getRequest db rid with
  | none => (db, false)
  | some req =>
    if result.success then
      let db1 := setRequest db rid { req with status := "booked", platform := some "resy" }
      let booking : BookingR :=
        { request_id := rid
          platform := "resy"
          confirmation_id := pyOrStr result.resy_token result.reservation_id
          restaurant_name := req.restaurant_name
          date := req.date
          time := result.booked_time.getD req.time
          party_size := req.party_size
          status := "confirmed"
          raw_response := result.raw }
      (appendLog (addBooking db1 booking)
        { request_id := some rid, action := "resy_booked", platform := some "resy",
          details := some result.raw }, true)
    else
      (appendLog db
        { request_id := some rid, action := "resy_unavailable", platform := some "resy",
          details := some result.raw }, false)

/-- Number of Booking rows of a request with status confirmed (spec P1). -/
def countConfirmed (db : DB) (rid : Nat) : Nat :=
  (db.bookings.filter (fun b => b.request_id == rid && b.status == "confirmed")).length

/- Concrete data for claim C1. -/

def reqBookedC1 : RequestR :=
  { id := 1, restaurant_name := "Carbone", date := "2025-06-01", time := "19:00",
    party_size := 2, contact_email := "", status := "booked", venue_id := some "123",
    booking_open_time := none, poll_attempts := 0, max_poll_duration_secs := 300,
    platform := some "resy" }

def bookingC1 : BookingR :=
  { request_id := 1, platform := "resy", confirmation_id := some "R-abc",
    restaurant_name := "Carbone", date := "2025-06-01", time := "19:00",
    party_size := 2, status := "confirmed", raw_response := "" }

def dbBookedC1 : DB :=
  { requests := [reqBookedC1], subscriptions := [], bookings := [bookingC1], logs := [] }

def okOutcomeC1 : BookOutcome :=
  { success := true, resy_token := some "R-def", reservation_id := none,
    booked_time := some "19:00", raw := "" }

/- Helper lemmas on the store operations. -/

theorem getRequest_id_eq {db : DB} {rid : Nat} {req : RequestR}
    (h : getRequest db rid = some req) : req.id = rid := by
  have := List.find?_some h
  simpa using this

theorem find?_map_set (l : List RequestR) (rid : Nat) (req : RequestR)
    (hid : req.id = rid) (h : ∃ r ∈ l, r.id = rid) :
    (l.map (fun r => if r.id == rid then req else r)).find? (fun r => r.id == rid)
      = some req := by
  induction l with
  | nil => simp at h
  | cons a t ih =>
    by_cases ha : a.id = rid
    · simp [List.find?, ha, hid]
    · have ha' : (a.id == rid) = false := by simpa using ha
      obtain ⟨r, hr, hrid⟩ := h
      rcases List.mem_cons.mp hr with rfl | hrt
      · exact absurd hrid ha
      · have hhead : (if (a.id == rid) = true then req else a) = a := by simp [ha']
        simp only [List.map_cons, hhead]
        rw [List.find?_cons_of_neg _ (by simp [ha'])]
        exact ih ⟨r, hrt, hrid⟩

theorem getRequest_setRequest {db : DB} {rid : Nat} {req req' : RequestR}
    (h : getRequest db rid = some req) (hid : req'.id = rid) :
    getRequest (setRequest db rid req') rid = some req' := by
  have hmem : ∃ r ∈ db.requests, r.id = rid := by
    refine ⟨req, List.mem_of_find?_eq_some h, getRequest_id_eq h⟩
  exact find?_map_set db.requests rid req' hid hmem

theorem getRequest_appendLog (db : DB) (e : LogEntry) (rid : Nat) :
    getRequest (appendLog db e) rid = getRequest db rid := rfl

theorem getRequest_addBooking (db : DB) (b : BookingR) (rid : Nat) :
    getRequest (addBooking db b) rid = getRequest db rid := rfl

theorem countConfirmed_setRequest (db : DB) (rid : Nat) (req : RequestR) (rid' : Nat) :
    countConfirmed (setRequest db rid req) rid' = countConfirmed db rid' := rfl

theorem countConfirmed_appendLog (db : DB) (e : LogEntry) (rid : Nat) :
    countConfirmed (appendLog db e) rid = countConfirmed db rid := rfl

theorem countConfirmed_addBooking_hit (db : DB) (b : BookingR) (rid : Nat)
    (hb : b.request_id = rid) (hs : b.status = "confirmed") :
    countConfirmed (addBooking db b) rid = countConfirmed db rid + 1 := by
  simp [countConfirmed, addBooking, List.filter_append, hb, hs]

/-- C1: the booking-commit transaction of `_try_resy` reloads the Request but
performs no status check at all: the claim that it refuses to insert a
Booking when the Request is already booked is false.  Starting from a
request that is already booked with one confirmed Booking, a further
successful attempt commits and leaves two confirmed Bookings. -/
theorem try_resy_commit_already_booked_cex :
    (getRequest dbBookedC1 1).map RequestR.status = some "booked" ∧
    countConfirmed dbBookedC1 1 = 1 ∧
    (try_resy_commit dbBookedC1 1 okOutcomeC1).2 = true ∧
    countConfirmed (try_resy_commit dbBookedC1 1 okOutcomeC1).1 1 = 2 := by
  decide

/-- C1 (amended): whenever the request row exists and the adapter result is a
success, the booking-commit transaction reports success, inserts exactly one
more confirmed Booking for the request, and sets status to booked and
platform to resy — regardless of the request's prior status, so nothing
enforces at most one confirmed Booking per Request. -/
theorem try_resy_commit_success_always_inserts
    (db : DB) (rid : Nat) (res : BookOutcome) (req : RequestR)
    (hreq : getRequest db rid = some req) (hs : res.success = true) :
    (try_resy_commit db rid res).2 = true ∧
    countConfirmed (try_resy_commit db rid res).1 rid = countConfirmed db rid + 1 ∧
    getRequest (try_resy_commit db rid res).1 rid
      = some { req with status := "booked", platform := some "resy" } := by
  have hid0 : req.id = rid := getRequest_id_eq hreq
  have hid : ({ req with status := "booked", platform := some "resy" } : RequestR).id = rid := hid0
  unfold try_resy_commit
  rw [hreq]
  simp only [hs, if_true]
  refine ⟨by trivial, ?_, ?_⟩
  · rw [countConfirmed_appendLog, countConfirmed_addBooking_hit _ _ _ rfl rfl,
      countConfirmed_setRequest]
  · rw [getRequest_appendLog, getRequest_addBooking]
    exact getRequest_setRequest hreq hid

/-- Witness for the amended C1 theorem at a concrete store. -/
theorem try_resy_commit_success_always_inserts_witness :
    (try_resy_commit dbBookedC1 1 okOutcomeC1).2 = true ∧
    countConfirmed (try_resy_commit dbBookedC1 1 okOutcomeC1).1 1 = countConfirmed dbBookedC1 1 + 1 ∧
    getRequest (try_resy_commit dbBookedC1 1 okOutcomeC1).1 1
      = some { reqBookedC1 with status := "booked", platform := some "resy" } :=
  try_resy_commit_success_always_inserts dbBookedC1 1 okOutcomeC1 reqBookedC1
    (by decide) (by decide)

/-- Outcome of an HTTP endpoint acting on the store. -/
inductive HttpResult (α : Type) where
  | notFound
  | badRequest
  | ok (a : α)
deriving DecidableEq

/-- `cancel_reservation` (src/routers/reservations.py lines 87-103): load the
request (404 when missing), set its status to cancelled and deactivate all
its subscriptions — with no check of the current status. -/
def cancel_reservation (db : DB) (rid : Nat) : HttpResult DB :=
  match getRequest db rid with
  | none => .notFound
  | some req =>
    .ok (deactivateSubscriptions (setRequest db rid { req with status := "cancelled" }) rid)

/-- `retry_reservation` (src/routers/reservations.py lines 106-118): 404 when
missing, 400 when already booked, otherwise set status back to pending. -/
def retry_reservation (db : DB) (rid : Nat) : HttpResult DB :=
  match getRequest db rid with
  | none => .notFound
  | some req =>
    if req.status = "booked" then .badRequest
    else .ok (setRequest db rid { req with status := "pending" })

/-- The transaction opening `process_reservation`
(src/services/orchestrator.py lines 48-56): load the request and, when it
exists, unconditionally set its status to searching and append a
`search_started` log — there is no guard on the prior status. -/
def process_reservation_start (db : DB) (rid : Nat) : DB :=
  match getRequest db rid with
  | none => db
  | some req =>
    appendLog (setRequest db rid { req with status := "searching" })
      { request_id := some rid, action := "search_started", platform := none, details := none }

/-- `_update_status` (src/services/orchestrator.py lines 29-31): a bare
assignment of the new status, with no transition table and no failure path. -/
def update_status (req : RequestR) (status : String) : RequestR :=
  { req with status := status }

/-- The terminal statuses of spec section 3. -/
def isTerminalStatus (s : String) : Bool :=
  s = "booked" || s = "cancelled" || s = "failed" || s = "no_availability"

/-- Modelled from the spec: the state-machine transition table of spec
section 3 (states diagram, terminal-state list, the any-non-terminal to
cancelled edge, the retry edge back to pending, and the router's guard that
only booked and cancelled block `notify_received`).  This is the spec-side
definition that claim C6 says a guarded `Update` enforces; no such table
exists in the source. -/
def spec_allowed_transition (a b : String) : Bool :=
  (a = "pending" && b = "searching") ||
  (a = "searching" && (b = "booked" || b = "no_availability" || b = "waiting")) ||
  (a = "waiting" && b = "polling") ||
  (a = "polling" && (b = "booked" || b = "failed")) ||
  (!(a = "booked" || a = "cancelled") && b = "notify_received") ||
  (a = "notify_received" && (b = "booked" || b = "failed")) ||
  (!isTerminalStatus a && b = "cancelled") ||
  (!(a = "booked") && b = "pending")

/- Concrete data for claims C2, C5 and C6. -/

def reqBookedC2 : RequestR :=
  { id := 1, restaurant_name := "Carbone", date := "2025-06-01", time := "19:00",
    party_size := 2, contact_email := "", status := "booked", venue_id := some "123",
    booking_open_time := none, poll_attempts := 0, max_poll_duration_secs := 300,
    platform := some "resy" }

def subActiveC2 : SubscriptionR :=
  { id := 7, request_id := 1, platform := "resy", active := true,
    search_date := "2025-06-01", search_time := "19:00", search_party_size := 2,
    restaurant_name := "Carbone", venue_id := some "123" }

def dbBookedC2 : DB :=
  { requests := [reqBookedC2], subscriptions := [subActiveC2], bookings := [], logs := [] }

def dbAfterCancelC2 : DB :=
  { requests := [{ reqBookedC2 with status := "cancelled" }],
    subscriptions := [{ subActiveC2 with active := false }], bookings := [], logs := [] }

def reqFailedC2 : RequestR := { reqBookedC2 with id := 2, status := "failed", platform := none }

def dbFailedC2 : DB :=
  { requests := [reqFailedC2], subscriptions := [], bookings := [], logs := [] }

def reqBookedC5 : RequestR := { reqBookedC2 with id := 3 }

def dbBookedC5 : DB :=
  { requests := [reqBookedC5], subscriptions := [], bookings := [], logs := [] }

def reqBookedC6 : RequestR := { reqBookedC2 with id := 4 }

/-- C2: the claim that the cancel operation never changes the status of a
Request that is already booked is false: cancelling a booked request
rewrites its status to cancelled (and deactivates its subscriptions). -/
theorem cancel_mutates_booked_cex :
    (getRequest dbBookedC2 1).map RequestR.status = some "booked" ∧
    cancel_reservation dbBookedC2 1 = .ok dbAfterCancelC2 ∧
    (getRequest dbAfterCancelC2 1).map RequestR.status = some "cancelled" := by
  decide

/-- C2 (amended): terminal states are not protected.  Cancel unconditionally
moves any existing request — booked included — to cancelled and deactivates
all of its subscriptions, and retry moves any existing non-booked request —
the terminal cancelled, failed and no_availability included — back to
pending; only retry guards against booked. -/
theorem cancel_and_retry_mutate_terminal
    (db : DB) (rid : Nat) (req : RequestR) (hreq : getRequest db rid = some req) :
    (∃ db', cancel_reservation db rid = .ok db' ∧
      getRequest db' rid = some { req with status := "cancelled" } ∧
      ∀ s ∈ db'.subscriptions, s.request_id = rid → s.active = false) ∧
    (req.status ≠ "booked" →
      ∃ db'', retry_reservation db rid = .ok db'' ∧
        getRequest db'' rid = some { req with status := "pending" }) := by
  have hid : req.id = rid := getRequest_id_eq hreq
  constructor
  · refine ⟨_, by unfold cancel_reservation; rw [hreq], ?_, ?_⟩
    · show getRequest (deactivateSubscriptions _ rid) rid = _
      have : getRequest (setRequest db rid { req with status := "cancelled" }) rid
          = some { req with status := "cancelled" } :=
        getRequest_setRequest hreq hid
      simpa [getRequest, deactivateSubscriptions] using this
    · intro s hs hsrid
      simp only [deactivateSubscriptions, List.mem_map] at hs
      obtain ⟨s0, _, rfl⟩ := hs
      by_cases h0 : s0.request_id = rid
      · simp [h0]
      · have : (s0.request_id == rid) = false := by simpa using h0
        simp only [this, Bool.false_eq_true, if_false] at hsrid ⊢
        exact absurd hsrid h0
  · intro hnb
    refine ⟨_, ?_, getRequest_setRequest hreq hid⟩
    unfold retry_reservation
    rw [hreq]
    simp [hnb]

/-- Witness for the amended C2 theorem: a failed (terminal) request is both
cancellable and retryable. -/
theorem cancel_and_retry_mutate_terminal_witness :
    (∃ db', cancel_reservation dbFailedC2 2 = .ok db' ∧
      getRequest db' 2 = some { reqFailedC2 with status := "cancelled" } ∧
      ∀ s ∈ db'.subscriptions, s.request_id = 2 → s.active = false) ∧
    (∃ db'', retry_reservation dbFailedC2 2 = .ok db'' ∧
      getRequest db'' 2 = some { reqFailedC2 with status := "pending" }) :=
  have h := cancel_and_retry_mutate_terminal dbFailedC2 2 reqFailedC2 (by decide)
  ⟨h.1, h.2 (by decide)⟩

/-- C5: Submit is not idempotent — invoking `process_reservation` on a
request that is already booked is not a no-op: its very first transaction
rewrites the status to searching. -/
theorem submit_not_idempotent_cex :
    (getRequest dbBookedC5 3).map RequestR.status = some "booked" ∧
    (getRequest (process_reservation_start dbBookedC5 3) 3).map RequestR.status
      = some "searching" := by
  decide

/-- C5 (amended): `process_reservation` has no status guard: for every
existing request, whatever its status (pending or not), the opening
transaction sets the status to searching and appends a `search_started`
log, and the acquisition attempt then proceeds. -/
theorem process_reservation_start_unconditional
    (db : DB) (rid : Nat) (req : RequestR) (hreq : getRequest db rid = some req) :
    getRequest (process_reservation_start db rid) rid
      = some { req with status := "searching" } ∧
    (process_reservation_start db rid).logs
      = db.logs ++ [{ request_id := some rid, action := "search_started",
                      platform := none, details := none }] := by
  have hid : req.id = rid := getRequest_id_eq hreq
  unfold process_reservation_start
  rw [hreq]
  exact ⟨getRequest_setRequest hreq hid, rfl⟩

/-- Witness for the amended C5 theorem at a concrete booked request. -/
theorem process_reservation_start_unconditional_witness :
    getRequest (process_reservation_start dbBookedC5 3) 3
      = some { reqBookedC5 with status := "searching" } ∧
    (process_reservation_start dbBookedC5 3).logs
      = dbBookedC5.logs ++ [{ request_id := some 3, action := "search_started",
                              platform := none, details := none }] :=
  process_reservation_start_unconditional dbBookedC5 3 reqBookedC5 (by decide)

/-- C6: no guarded update exists.  The transition booked to searching is
forbidden by the spec's transition table, yet `_update_status` performs it
and mutates the request instead of failing with InvalidTransition. -/
theorem update_status_unguarded_cex :
    spec_allowed_transition "booked" "searching" = false ∧
    update_status reqBookedC6 "searching" = { reqBookedC6 with status := "searching" } ∧
    (update_status reqBookedC6 "searching").status ≠ reqBookedC6.status := by
  decide

/-- C6 (amended): status updates are unguarded bare assignments: even for a
transition the spec's table forbids, `_update_status` succeeds and sets
exactly the requested status; no InvalidTransition error exists anywhere in
the source. -/
theorem update_status_ignores_table (req : RequestR) (s : String)
    (h : spec_allowed_transition req.status s = false) :
    update_status req s = { req with status := s } := rfl

/-- Witness for the amended C6 theorem on the forbidden booked-to-searching
transition. -/
theorem update_status_ignores_table_witness :
    update_status reqBookedC6 "searching" = { reqBookedC6 with status := "searching" } :=
  update_status_ignores_table reqBookedC6 "searching" (by decide)

/-- What `process_reservation` does after the immediate attempt returned
non-success. -/
inductive PostSearchStep where
  | exitTask
  | handToSniper
  | markNoAvailability
deriving DecidableEq

/-- The dispatch after a failed immediate attempt
(src/services/orchestrator.py lines 65-80): reload the request; a missing or
cancelled request exits; a set `booking_open_time` — tested only for
presence, never against the clock — hands off to `_snipe_reservation`; only
an absent `booking_open_time` marks the request no_availability. -/
def postSearchStep (req? : Option RequestR) : PostSearchStep :=
  match req? with
  | none => .exitTask
  | some req =>
    if req.status = "cancelled" then .exitTask
    else if req.booking_open_time.isSome then .handToSniper
    else .markNoAvailability

/-- Modelled from the spec: spec section 4.3 steps 3-4 dispatch to the
Sniper only when `booking_open_time` is set AND that instant is still in the
future at decision time `now`; otherwise the request is marked
no_availability.  This is the spec-side definition claim C4 compares the
source against. -/
def postSearchStepSpec (now : Int) (req? : Option RequestR) : PostSearchStep :=
  match req? with
  | none => .exitTask
  | some req =>
    if req.status = "cancelled" then .exitTask
    else
      match req.booking_open_time with
      | some t0 => if now < t0 then .handToSniper else .markNoAvailability
      | none => .markNoAvailability

/-- First phase of the sniper. -/
inductive SniperPhaseOne where
  | waitThenPoll (waitSeconds : Int)
  | pollImmediately
deriving DecidableEq

/-- Entry of `_snipe_reservation` (src/services/orchestrator.py lines
99-109): with `booking_open_time` t0 and current instant `now`, a positive
wait sleeps before polling; otherwise the sniper proceeds straight to the
polling loop. -/
def sniperPhaseOne (now t0 : Int) : SniperPhaseOne :=
  let wait := t0 - now
  if 0 < wait then .waitThenPoll wait else .pollImmediately

/- Concrete data for claim C4: at decision time 100, the booking open
instant 50 has already passed. -/

def reqPastOpenC4 : RequestR :=
  { id := 5, restaurant_name := "Carbone", date := "2025-06-01", time := "19:00",
    party_size := 2, contact_email := "", status := "searching", venue_id := some "123",
    booking_open_time := some 50, poll_attempts := 0, max_poll_duration_secs := 300,
    platform := none }

/-- C4: the claim is false — a `booking_open_time` that has already passed
still hands the request to the Sniper, where the spec demands
no_availability.  The source compares the field only against None, never
against the clock. -/
theorem post_search_past_open_time_cex :
    reqPastOpenC4.booking_open_time = some 50 ∧ (50 : Int) < 100 ∧
    postSearchStep (some reqPastOpenC4) = .handToSniper ∧
    postSearchStepSpec 100 (some reqPastOpenC4) = .markNoAvailability := by
  decide

/-- C4 (amended): after a non-success immediate attempt, a non-cancelled
request is handed to the Sniper exactly when `booking_open_time` is set —
even when that instant has already passed, in which case the Sniper skips
the wait and polls immediately; only a request with no `booking_open_time`
at all transitions to no_availability. -/
theorem post_search_dispatch_amended :
    (∀ req : RequestR, req.status ≠ "cancelled" →
      ((postSearchStep (some req) = .handToSniper ↔ req.booking_open_time.isSome = true) ∧
       (postSearchStep (some req) = .markNoAvailability ↔ req.booking_open_time = none))) ∧
    (∀ now t0 : Int, t0 ≤ now → sniperPhaseOne now t0 = .pollImmediately) := by
  constructor
  · intro req hnc
    unfold postSearchStep
    rcases h : req.booking_open_time with _ | t0 <;> simp [hnc, h]
  · intro now t0 hle
    unfold sniperPhaseOne
    have : ¬ (0 < t0 - now) := by omega
    simp [this]

/-- Witness for the amended C4 theorem on the passed-open-time request. -/
theorem post_search_dispatch_amended_witness :
    ((postSearchStep (some reqPastOpenC4) = .handToSniper ↔
        reqPastOpenC4.booking_open_time.isSome = true) ∧
     (postSearchStep (some reqPastOpenC4) = .markNoAvailability ↔
        reqPastOpenC4.booking_open_time = none)) ∧
    sniperPhaseOne 100 50 = .pollImmediately :=
  ⟨post_search_dispatch_amended.1 reqPastOpenC4 (by decide),
   post_search_dispatch_amended.2 100 50 (by decide)⟩

/-- A notification event dict parsed from the mailbox
(src/services/gmail_monitor.py lines 58-102); `none` stands for an absent
key. -/
structure Notif where
  restaurant_name : Option String
  platform : Option String
  subject : Option String
  email_id : Option String
deriving DecidableEq

/-- Modelled from the spec: `auto_book_from_notification` is imported by the
notification handler (src/services/notification_handler.py line 55) but is
defined nowhere under src.  Spec section 4.5 defines it as `_try_platform`
(section 4.3) without the sniper branch: reload the request inside a
transaction and abort when the status is terminal; on a Booked adapter
result — passed in here as `result` — commit status booked, the platform, a
confirmed Booking row and a `booked` log in one transaction and report
success; otherwise append a log and report non-success. -/
def auto_book_from_notification (db : DB) (rid : Nat) (platform : String)
    (result : BookOutcome) : DB × Bool :=
  match getRequest db rid with
  | none => (db, false)
  | some req =>
    if isTerminalStatus req.status then (db, false)
    else if result.success then
      let db1 := setRequest db rid { req with status := "booked", platform := some platform }
      let booking : BookingR :=
        { request_id := rid
          platform := platform
          confirmation_id := pyOrStr result.resy_token result.reservation_id
          restaurant_name := req.restaurant_name
          date := req.date
          time := result.booked_time.getD req.time
          party_size := req.party_size
          status := "confirmed"
          raw_response := result.raw }
      (appendLog (addBooking db1 booking)
        { request_id := some rid, action := "booked", platform := some platform,
          details := some result.raw }, true)
    else
      (appendLog db
        { request_id := some rid, action := "auto_book_failed", platform := some platform,
          details := some result.raw }, false)

/-- The `notification_received` ActivityLog row written by `_process_match`
(src/services/notification_handler.py lines 65-75); its `details` JSON is
abbreviated to the three metadata fields it carries. -/
def notifLogEntry (sub : SubscriptionR) (notif : Notif) : LogEntry :=
  { request_id := some sub.request_id, action := "notification_received",
    platform := some sub.platform,
    details := some (notif.restaurant_name.getD "" ++ "|" ++
      notif.subject.getD "" ++ "|" ++ notif.email_id.getD "") }

/-- `_process_match` (src/services/notification_handler.py lines 53-96):
load the parent request of the matched subscription; skip silently when it
is booked or cancelled; otherwise transition it to notify_received and
append a `notification_received` log in one transaction, invoke the
auto-book entry point outside that transaction, and when it reports success
deactivate every subscription of the request in one transaction. -/
def process_match (db : DB) (sub : SubscriptionR) (notif : Notif)
    (result : BookOutcome) : DB :=
  match getRequest db sub.request_id with
  | none => db
  | some req =>
    if req.status = "booked" || req.status = "cancelled" then db
    else
      let db1 := setRequest db sub.request_id { req with status := "notify_received" }
      let db2 := appendLog db1 (notifLogEntry sub notif)
      let r := auto_book_from_notification db2 sub.request_id sub.platform result
      if r.2 then deactivateSubscriptions r.1 sub.request_id else r.1

/- Further helper lemmas on the store operations. -/

theorem deactivate_inactive (db : DB) (rid : Nat) :
    ∀ s ∈ (deactivateSubscriptions db rid).subscriptions, s.request_id = rid → s.active = false := by
  intro s hs hsrid
  simp only [deactivateSubscriptions, List.mem_map] at hs
  obtain ⟨s0, _, rfl⟩ := hs
  by_cases h0 : s0.request_id = rid
  · simp [h0]
  · have h0' : (s0.request_id == rid) = false := by simpa using h0
    simp only [h0', Bool.false_eq_true, if_false] at hsrid ⊢
    exact absurd hsrid h0

theorem getRequest_deactivate (db : DB) (rid rid' : Nat) :
    getRequest (deactivateSubscriptions db rid) rid' = getRequest db rid' := rfl

theorem mem_logs_appendLog (db : DB) (e : LogEntry) : e ∈ (appendLog db e).logs := by
  simp [appendLog]

/-- C3: confirmed against the spec-modelled auto-book entry point.  For a
matched subscription whose parent request exists: a booked or cancelled
parent is skipped with no mutation; otherwise the request is moved to
notify_received with a `notification_received` log, auto-book runs, and on
its success every subscription of the request ends inactive with the
request booked, while on failure the request stays in notify_received and
the subscriptions are untouched. -/
theorem process_match_spec (db : DB) (sub : SubscriptionR) (notif : Notif)
    (res : BookOutcome) (req : RequestR)
    (hreq : getRequest db sub.request_id = some req) :
    ((req.status = "booked" ∨ req.status = "cancelled") →
      process_match db sub notif res = db) ∧
    (req.status ≠ "booked" → req.status ≠ "cancelled" →
      (∃ e ∈ (process_match db sub notif res).logs,
        e.request_id = some sub.request_id ∧ e.action = "notification_received") ∧
      (res.success = true →
        (∀ s ∈ (process_match db sub notif res).subscriptions,
          s.request_id = sub.request_id → s.active = false) ∧
        (getRequest (process_match db sub notif res) sub.request_id).map RequestR.status
          = some "booked") ∧
      (res.success = false →
        (getRequest (process_match db sub notif res) sub.request_id).map RequestR.status
          = some "notify_received" ∧
        (process_match db sub notif res).subscriptions = db.subscriptions)) := by
  have hid : req.id = sub.request_id := getRequest_id_eq hreq
  constructor
  · intro hskip
    unfold process_match
    rw [hreq]
    rcases hskip with h | h <;> simp [h]
  · intro hb hc
    have hcond : (decide (req.status = "booked") || decide (req.status = "cancelled")) = false := by
      simp [hb, hc]
    have hterm : isTerminalStatus "notify_received" = false := by decide
    have hreq1 : getRequest
        (appendLog (setRequest db sub.request_id { req with status := "notify_received" })
          (notifLogEntry sub notif))
        sub.request_id = some { req with status := "notify_received" } := by
      rw [getRequest_appendLog]
      exact getRequest_setRequest hreq hid
    unfold process_match
    rw [hreq]
    simp only [hcond, Bool.false_eq_true, if_false]
    unfold auto_book_from_notification
    rw [hreq1]
    simp only [hterm, Bool.false_eq_true, if_false]
    rcases hsucc : res.success with _ | _
    · simp only [Bool.false_eq_true, if_false]
      refine ⟨⟨notifLogEntry sub notif, ?_, rfl, rfl⟩, ?_, ?_⟩
      · exact List.mem_append_left _ (mem_logs_appendLog _ _)
      · intro h; exact absurd h (by simp [hsucc])
      · intro _
        constructor
        · rw [getRequest_appendLog, getRequest_appendLog]
          rw [show getRequest (setRequest db sub.request_id
                { req with status := "notify_received" }) sub.request_id
              = some { req with status := "notify_received" } from getRequest_setRequest hreq hid]
          rfl
        · rfl
    · simp only [if_true]
      refine ⟨⟨notifLogEntry sub notif, ?_, rfl, rfl⟩, ?_, ?_⟩
      · show _ ∈ (deactivateSubscriptions (appendLog _ _) _).logs
        exact List.mem_append_left _ (mem_logs_appendLog _ _)
      · intro _
        refine ⟨deactivate_inactive _ _, ?_⟩
        have hreq2 : getRequest
            (setRequest
              (appendLog (setRequest db sub.request_id { req with status := "notify_received" })
                (notifLogEntry sub notif))
              sub.request_id
              { req with status := "booked", platform := some sub.platform })
            sub.request_id
            = some { req with status := "booked", platform := some sub.platform } :=
          getRequest_setRequest hreq1 hid
        rw [getRequest_deactivate, getRequest_appendLog, getRequest_addBooking, hreq2]
        rfl
      · intro h; exact absurd h (by simp [hsucc])

/- Concrete data for the C3 witness: a request in no_availability with two
subscriptions, a matching notification and a successful adapter result. -/

def reqC3 : RequestR :=
  { id := 6, restaurant_name := "Carbone", date := "2025-06-01", time := "19:00",
    party_size := 2, contact_email := "", status := "no_availability",
    venue_id := some "123", booking_open_time := none, poll_attempts := 0,
    max_poll_duration_secs := 300, platform := none }

def subC3 : SubscriptionR :=
  { id := 9, request_id := 6, platform := "resy", active := true,
    search_date := "2025-06-01", search_time := "19:00", search_party_size := 2,
    restaurant_name := "Carbone", venue_id := some "123" }

def subC3b : SubscriptionR := { subC3 with id := 10, platform := "opentable" }

def dbC3 : DB :=
  { requests := [reqC3], subscriptions := [subC3, subC3b], bookings := [], logs := [] }

def notifC3 : Notif :=
  { restaurant_name := some "carbone", platform := some "resy",
    subject := some "Table available", email_id := some "m1" }

def okOutcomeC3 : BookOutcome :=
  { success := true, resy_token := some "R-xyz", reservation_id := none,
    booked_time := some "19:15", raw := "" }

/-- Witness for the C3 theorem at a concrete matched subscription with a
successful auto-book. -/
theorem process_match_spec_witness :
    (∃ e ∈ (process_match dbC3 subC3 notifC3 okOutcomeC3).logs,
      e.request_id = some subC3.request_id ∧ e.action = "notification_received") ∧
    (∀ s ∈ (process_match dbC3 subC3 notifC3 okOutcomeC3).subscriptions,
      s.request_id = subC3.request_id → s.active = false) ∧
    (getRequest (process_match dbC3 subC3 notifC3 okOutcomeC3) subC3.request_id).map
        RequestR.status = some "booked" :=
  have h := (process_match_spec dbC3 subC3 notifC3 okOutcomeC3 reqC3 (by decide)).2
    (by decide) (by decide)
  ⟨h.1, (h.2.1 rfl).1, (h.2.1 rfl).2⟩

/-- A slot dict as built by `find_available_slots`
(src/services/resy_service.py lines 110-123): always carries exactly the
four keys below, so such a dict is never empty (never falsy); `none` stands
for a key whose value is JSON null. -/
structure Slot where
  config_id : Option String
  token : Option String
  time : Option String
  type : Option String
deriving DecidableEq

/-- Python `int(s)` restricted to plain digit strings, the only numerals the
sliced HH:MM time strings can produce; any other string raises ValueError,
here `none`. -/
def pyInt? (s : String) : Option Nat :=
  let cs := s.toList
  if cs.isEmpty then none
  else if cs.all Char.isDigit then
    some (cs.foldl (fun a c => a * 10 + (c.toNat - 48)) 0)
  else none

/-- Python slice `s[:n]` (clamping, never raising). -/
def pyTake (s : String) (n : Nat) : String := ⟨s.toList.take n⟩

/-- Python slice `s[a:b]` for `a ≤ b` (clamping, never raising). -/
def pySlice (s : String) (a b : Nat) : String := ⟨(s.toList.drop a).take (b - a)⟩

/-- `slot_time.split(" ")[-1][:5] if " " in slot_time else slot_time[:5]`
(src/services/resy_service.py line 216). -/
def timePartOf (slot_time : String) : String :=
  if slot_time.toList.contains ' ' then pyTake ((slot_time.splitOn " ").getLastD "") 5
  else pyTake slot_time 5

/-- The `time_diff` key function inside `_pick_best_slot`
(src/services/resy_service.py lines 211-222): a missing or empty time is
penalised with 9999, a parse failure of either the slot time or the
preferred time likewise; otherwise the absolute difference in minutes. -/
def time_diff (preferred_time : String) (slot : Slot) : Nat :=
  match slot.time with
  | none => 9999
  | some st =>
    if st = "" then 9999
    else
      let tp := timePartOf st
      match pyInt? (pyTake tp 2), pyInt? (pySlice tp 3 5),
            pyInt? (pyTake preferred_time 2), pyInt? (pySlice preferred_time 3 5) with
      | some sh, some sm, some ph, some pm =>
        ((sh * 60 + sm : Int) - (ph * 60 + pm)).natAbs
      | _, _, _, _ => 9999

/-- Python `min(slots, key=time_diff)`: a left fold that replaces the
current minimum only on a strictly smaller key, so the first element
attaining the minimal key wins. -/
def minByFirst (g : Slot → Nat) : Slot → List Slot → Slot
  | best, [] => best
  | best, x :: xs => minByFirst g (if g x < g best then x else best) xs

/-- `_pick_best_slot` (src/services/resy_service.py lines 206-224). -/
def pick_best_slot (slots : List Slot) (preferred_time : String) : Option Slot :=
  match slots with
  | [] => none
  | s :: rest => some (minByFirst (time_diff preferred_time) s rest)

theorem minByFirst_mem (g : Slot → Nat) : ∀ (l : List Slot) (best : Slot),
    minByFirst g best l = best ∨ minByFirst g best l ∈ l := by
  intro l
  induction l with
  | nil => intro best; left; rfl
  | cons x xs ih =>
    intro best
    simp only [minByFirst]
    rcases ih (if g x < g best then x else best) with h | h
    · by_cases hx : g x < g best
      · right; rw [h, if_pos hx]; exact List.mem_cons_self _ _
      · left; rw [h, if_neg hx]
    · right; exact List.mem_cons_of_mem _ h

theorem minByFirst_le (g : Slot → Nat) : ∀ (l : List Slot) (best : Slot),
    g (minByFirst g best l) ≤ g best ∧ ∀ x ∈ l, g (minByFirst g best l) ≤ g x := by
  intro l
  induction l with
  | nil => intro best; exact ⟨le_refl _, by simp⟩
  | cons x xs ih =>
    intro best
    simp only [minByFirst]
    obtain ⟨h1, h2⟩ := ih (if g x < g best then x else best)
    have hb : g (if g x < g best then x else best) ≤ g best := by
      by_cases hx : g x < g best
      · rw [if_pos hx]; exact le_of_lt hx
      · rw [if_neg hx]
    have hxle : g (if g x < g best then x else best) ≤ g x := by
      by_cases hx : g x < g best
      · rw [if_pos hx]
      · rw [if_neg hx]; exact le_of_not_lt hx
    refine ⟨le_trans h1 hb, ?_⟩
    intro y hy
    rcases List.mem_cons.mp hy with rfl | hmem
    · exact le_trans h1 hxle
    · exact h2 y hmem

theorem minByFirst_first (g : Slot → Nat) : ∀ (l : List Slot) (best : Slot),
    (minByFirst g best l = best ∧ ∀ x ∈ l, g best ≤ g x) ∨
    (∃ l1 l2, l = l1 ++ minByFirst g best l :: l2 ∧
      g (minByFirst g best l) < g best ∧
      ∀ x ∈ l1, g (minByFirst g best l) < g x) := by
  intro l
  induction l with
  | nil => intro best; left; exact ⟨rfl, by simp⟩
  | cons x xs ih =>
    intro best
    by_cases hx : g x < g best
    · have hstep : minByFirst g best (x :: xs) = minByFirst g x xs := by
        simp only [minByFirst, if_pos hx]
      rw [hstep]
      rcases ih x with ⟨heq, hall⟩ | ⟨l1, l2, hdec, hlt, hpre⟩
      · right
        rw [heq]
        exact ⟨[], xs, by simp, hx, by simp⟩
      · right
        refine ⟨x :: l1, l2, ?_, lt_trans hlt hx, ?_⟩
        · rw [List.cons_append]; exact congrArg (x :: ·) hdec
        · intro y hy
          rcases List.mem_cons.mp hy with rfl | hyl
          · exact hlt
          · exact hpre y hyl
    · have hstep : minByFirst g best (x :: xs) = minByFirst g best xs := by
        simp only [minByFirst, if_neg hx]
      rw [hstep]
      rcases ih best with ⟨heq, hall⟩ | ⟨l1, l2, hdec, hlt, hpre⟩
      · left
        refine ⟨heq, ?_⟩
        intro y hy
        rcases List.mem_cons.mp hy with rfl | hyl
        · exact le_of_not_lt hx
        · exact hall y hyl
      · right
        refine ⟨x :: l1, l2, ?_, hlt, ?_⟩
        · rw [List.cons_append]; exact congrArg (x :: ·) hdec
        · intro y hy
          rcases List.mem_cons.mp hy with rfl | hyl
          · exact lt_of_lt_of_le hlt (le_of_not_lt hx)
          · exact hpre y hyl

/- Concrete data for claim C7: two slots at equal distance from the
preferred 19:00, the later-time slot listed first, plus a far-off slot to
head the witness list. -/

def slotLateC7 : Slot :=
  { config_id := some "c1", token := some "t1", time := some "20:00", type := some "Dining Room" }

def slotEarlyC7 : Slot :=
  { config_id := some "c2", token := some "t2", time := some "18:00", type := some "Dining Room" }

def slotFarC7 : Slot :=
  { config_id := some "c0", token := some "t0", time := some "12:00", type := some "Dining Room" }

/-- C7: the tie-break is false.  With preferred time 19:00 and slots at
20:00 and 18:00 — both 60 minutes away — `_pick_best_slot` returns the
20:00 slot because it comes first in the list, not the earlier 18:00
slot the claim demands. -/
theorem pick_best_slot_tie_breaks_by_position_cex :
    slotLateC7.time = some "20:00" ∧ slotEarlyC7.time = some "18:00" ∧
    time_diff "19:00" slotLateC7 = 60 ∧ time_diff "19:00" slotEarlyC7 = 60 ∧
    pick_best_slot [slotLateC7, slotEarlyC7] "19:00" = some slotLateC7 ∧
    slotLateC7 ≠ slotEarlyC7 := by
  decide

/-- C7 (amended): `_pick_best_slot` returns the earliest slot in list order
among those whose computed minute difference from the preferred time is
minimal — not necessarily the one with the earlier time.  Formally the
returned slot is a member attaining the minimum, and the list splits as
`l1 ++ s :: l2` with every slot of the prefix `l1` strictly farther from
the preferred time, so no minimizer precedes `s`. -/
theorem pick_best_slot_min_and_first :
    ∀ (pref : String) (slots : List Slot) (s : Slot),
      pick_best_slot slots pref = some s →
      s ∈ slots ∧
      (∀ t ∈ slots, time_diff pref s ≤ time_diff pref t) ∧
      ∃ l1 l2, slots = l1 ++ s :: l2 ∧
        ∀ t ∈ l1, time_diff pref s < time_diff pref t := by
  intro pref slots s h
  cases slots with
  | nil => simp [pick_best_slot] at h
  | cons x rest =>
    simp only [pick_best_slot, Option.some.injEq] at h
    subst h
    refine ⟨?_, ?_, ?_⟩
    · rcases minByFirst_mem (time_diff pref) rest x with h1 | h1
      · rw [h1]; exact List.mem_cons_self _ _
      · exact List.mem_cons_of_mem _ h1
    · intro t ht
      obtain ⟨h1, h2⟩ := minByFirst_le (time_diff pref) rest x
      rcases List.mem_cons.mp ht with rfl | hmem
      · exact h1
      · exact h2 t hmem
    · rcases minByFirst_first (time_diff pref) rest x with ⟨heq, hall⟩ | ⟨l1, l2, hdec, hlt, hpre⟩
      · exact ⟨[], rest, by simp [heq], by simp⟩
      · refine ⟨x :: l1, l2, ?_, ?_⟩
        · rw [List.cons_append]; exact congrArg (x :: ·) hdec
        · intro t ht
          rcases List.mem_cons.mp ht with rfl | htl
          · exact hlt
          · exact hpre t htl

/-- Witness for the amended C7 theorem on a list whose tied minimizers sit
behind a far-off head slot: the selector picks the first of the two tied
slots and the prefix before it is strictly farther. -/
theorem pick_best_slot_min_and_first_witness :
    slotEarlyC7 ∈ [slotFarC7, slotEarlyC7, slotLateC7] ∧
    (∀ t ∈ [slotFarC7, slotEarlyC7, slotLateC7],
      time_diff "19:00" slotEarlyC7 ≤ time_diff "19:00" t) ∧
    ∃ l1 l2, [slotFarC7, slotEarlyC7, slotLateC7] = l1 ++ slotEarlyC7 :: l2 ∧
      ∀ t ∈ l1, time_diff "19:00" slotEarlyC7 < time_diff "19:00" t :=
  pick_best_slot_min_and_first "19:00" [slotFarC7, slotEarlyC7, slotLateC7] slotEarlyC7
    (by decide)

/-- The outcome of the availability-and-selection stage of
`search_and_book`. -/
inductive SelectOutcome where
  | noAvailability
  | noMatchingSlot
  | proceeds (best : Slot)
deriving DecidableEq

/-- The first two gates of `search_and_book`
(src/services/resy_service.py lines 187-194): an empty slot list yields the
no_availability error; a falsy best slot would yield the no_matching_slot
error; otherwise booking proceeds with the selected slot.  A slot produced
by `find_available_slots` always has four keys and is never falsy, so
falsiness of `best` coincides with `pick_best_slot` returning none. -/
def search_and_book_select (slots : List Slot) (pref : String) : SelectOutcome :=
  if slots.isEmpty then .noAvailability
  else
    match pick_best_slot slots pref with
    | none => .noMatchingSlot
    | some b => .proceeds b

/- Concrete data for the C9 witness. -/

def slotC9 : Slot :=
  { config_id := some "c3", token := some "t3", time := some "19:30", type := some "Dining Room" }

def slotNoTimeC9 : Slot :=
  { config_id := some "c4", token := some "t4", time := none, type := none }

/-- C9: for every non-empty slot list `_pick_best_slot` returns a member of
the list — slots with a missing or empty time are merely penalised with the
fixed distance 9999, never rejected — so the no_matching_slot branch of
`search_and_book` is unreachable whenever `find_available_slots` returns a
non-empty list. -/
theorem no_matching_slot_unreachable :
    (∀ (slots : List Slot) (pref : String), slots ≠ [] →
      ∃ b, search_and_book_select slots pref = .proceeds b ∧ b ∈ slots) ∧
    (∀ (pref : String) (s : Slot), s.time = none ∨ s.time = some "" →
      time_diff pref s = 9999) := by
  constructor
  · intro slots pref hne
    cases slots with
    | nil => exact absurd rfl hne
    | cons x rest =>
      refine ⟨minByFirst (time_diff pref) x rest, ?_, ?_⟩
      · simp [search_and_book_select, pick_best_slot]
      · rcases minByFirst_mem (time_diff pref) rest x with h | h
        · rw [h]; exact List.mem_cons_self _ _
        · exact List.mem_cons_of_mem _ h
  · intro pref s hs
    rcases hs with h | h <;> simp [time_diff, h]

/-- Witness for the C9 theorem on a two-slot list one of whose slots has no
time. -/
theorem no_matching_slot_unreachable_witness :
    (∃ b, search_and_book_select [slotC9, slotNoTimeC9] "19:00" = .proceeds b ∧
      b ∈ [slotC9, slotNoTimeC9]) ∧
    time_diff "19:00" slotNoTimeC9 = 9999 :=
  ⟨no_matching_slot_unreachable.1 [slotC9, slotNoTimeC9] "19:00" (by decide),
   no_matching_slot_unreachable.2 "19:00" slotNoTimeC9 (Or.inl rfl)⟩

/-- Python substring containment `needle in hay`: some contiguous run of
`hay` equals `needle` (the empty needle is contained in everything). -/
def containsSub (needle : List Char) : List Char → Bool
  | [] => needle.isPrefixOf []
  | c :: t => needle.isPrefixOf (c :: t) || containsSub needle t

/-- `needle in hay` on strings. -/
def strIn (needle hay : String) : Bool := containsSub needle.toList hay.toList

/-- Python `s.lower()`, characterwise (the names involved are ASCII). -/
def pyLower (s : String) : String := ⟨s.toList.map Char.toLower⟩

theorem containsSub_iff (n : List Char) : ∀ h : List Char, containsSub n h = true ↔ n <:+: h := by
  intro h
  induction h with
  | nil =>
    rw [List.infix_nil]
    cases n <;> simp [containsSub, List.isPrefixOf]
  | cons c t ih =>
    rw [show containsSub n (c :: t) = (n.isPrefixOf (c :: t) || containsSub n t) from rfl]
    rw [List.infix_cons_iff]
    simp [ih, List.isPrefixOf_iff_prefix]

/-- The match condition of `handle_notifications`
(src/services/notification_handler.py lines 36-39): case-insensitive
substring containment in either direction between the event restaurant name
and the subscription restaurant name. -/
def matches_name (restaurant_name sub_name : String) : Bool :=
  strIn (pyLower restaurant_name) (pyLower sub_name) ||
  strIn (pyLower sub_name) (pyLower restaurant_name)

theorem matches_name_iff (a b : String) :
    matches_name a b = true ↔
      ((pyLower a).toList <:+: (pyLower b).toList ∨
       (pyLower b).toList <:+: (pyLower a).toList) := by
  simp [matches_name, strIn, containsSub_iff]

/-- The subscription query of `handle_notifications`
(src/services/notification_handler.py lines 24-31): all active
subscriptions on the event's platform. -/
def activeSubsFor (db : DB) (platform : String) : List SubscriptionR :=
  db.subscriptions.filter (fun s => s.active && s.platform == platform)

/-- The matched subscriptions of one notification event
(src/services/notification_handler.py lines 16-40): an event with a missing
or empty restaurant_name or platform matches nothing; otherwise the active
same-platform subscriptions whose name satisfies the containment test. -/
def matchedSubs (db : DB) (notif : Notif) : List SubscriptionR :=
  let restaurant_name := notif.restaurant_name.getD ""
  let platform := notif.platform.getD ""
  if restaurant_name = "" || platform = "" then []
  else (activeSubsFor db platform).filter
    (fun sub => matches_name restaurant_name sub.restaurant_name)

/-- One iteration of the loop of `handle_notifications`
(src/services/notification_handler.py lines 16-50): skip events with a
missing or empty restaurant_name or platform, compute the matched
subscriptions once against the current store, and process every match in
order.  The adapter outcome of each triggered auto-book attempt is supplied
by `results`. -/
def handle_notification_event (db : DB) (notif : Notif)
    (results : SubscriptionR → BookOutcome) : DB :=
  let restaurant_name := notif.restaurant_name.getD ""
  let platform := notif.platform.getD ""
  if restaurant_name = "" || platform = "" then db
  else
    let matched := (activeSubsFor db platform).filter
      (fun sub => matches_name restaurant_name sub.restaurant_name)
    matched.foldl (fun d sub => process_match d sub notif (results sub)) db

/-- C8: a subscription is matched to the event exactly when it is active, on
the event's platform, and the lowercased event restaurant name is a
substring of the lowercased subscription restaurant name or vice versa; and
the handler processes exactly the full matched list, in order. -/
theorem notification_matching_spec (db : DB) (notif : Notif)
    (results : SubscriptionR → BookOutcome) (name platform : String)
    (hn : notif.restaurant_name = some name) (hp : notif.platform = some platform)
    (hne : name ≠ "") (hpe : platform ≠ "") :
    (∀ sub, sub ∈ matchedSubs db notif ↔
      sub ∈ db.subscriptions ∧ sub.active = true ∧ sub.platform = platform ∧
        ((pyLower name).toList <:+: (pyLower sub.restaurant_name).toList ∨
         (pyLower sub.restaurant_name).toList <:+: (pyLower name).toList)) ∧
    handle_notification_event db notif results
      = (matchedSubs db notif).foldl (fun d sub => process_match d sub notif (results sub)) db := by
  have hcond : (decide (notif.restaurant_name.getD "" = "") ||
      decide (notif.platform.getD "" = "")) = false := by
    simp [hn, hp, hne, hpe]
  constructor
  · intro sub
    simp only [matchedSubs, hn, hp, Option.getD_some] at *
    rw [if_neg (by simp [hne, hpe])]
    simp only [activeSubsFor, List.mem_filter, Bool.and_eq_true, beq_iff_eq, matches_name_iff]
    tauto
  · simp only [handle_notification_event, matchedSubs, hn, hp, Option.getD_some]
    rw [if_neg (by simp [hne, hpe]), if_neg (by simp [hne, hpe])]

/- Concrete data for the C8 witness: one matching subscription, one on
another platform. -/

def reqC8 : RequestR :=
  { id := 11, restaurant_name := "Carbone", date := "2025-06-01", time := "19:00",
    party_size := 2, contact_email := "", status := "no_availability",
    venue_id := some "123", booking_open_time := none, poll_attempts := 0,
    max_poll_duration_secs := 300, platform := none }

def subC8 : SubscriptionR :=
  { id := 12, request_id := 11, platform := "resy", active := true,
    search_date := "2025-06-01", search_time := "19:00", search_party_size := 2,
    restaurant_name := "Carbone", venue_id := some "123" }

def subC8b : SubscriptionR := { subC8 with id := 13, platform := "opentable" }

def dbC8 : DB :=
  { requests := [reqC8], subscriptions := [subC8, subC8b], bookings := [], logs := [] }

def notifC8 : Notif :=
  { restaurant_name := some "carbone", platform := some "resy",
    subject := some "Good news", email_id := some "m2" }

def failOutcomeC8 : BookOutcome :=
  { success := false, resy_token := none, reservation_id := none,
    booked_time := none, raw := "" }

/-- Witness for the C8 theorem at a concrete store and event. -/
theorem notification_matching_spec_witness :
    (∀ sub, sub ∈ matchedSubs dbC8 notifC8 ↔
      sub ∈ dbC8.subscriptions ∧ sub.active = true ∧ sub.platform = "resy" ∧
        ((pyLower "carbone").toList <:+: (pyLower sub.restaurant_name).toList ∨
         (pyLower sub.restaurant_name).toList <:+: (pyLower "carbone").toList)) ∧
    handle_notification_event dbC8 notifC8 (fun _ => failOutcomeC8)
      = (matchedSubs dbC8 notifC8).foldl
          (fun d sub => process_match d sub notifC8 ((fun _ => failOutcomeC8) sub)) dbC8 :=
  notification_matching_spec dbC8 notifC8 (fun _ => failOutcomeC8) "carbone" "resy"
    rfl rfl (by decide) (by decide)

/-- C10: the handler silently skips an event whose restaurant_name or
platform is missing or empty, and an event with no matching active
subscription: in both cases the store — requests, subscriptions, bookings
and activity log alike — is returned unchanged. -/
theorem handle_notification_skips_spec (db : DB) (notif : Notif)
    (results : SubscriptionR → BookOutcome) :
    (notif.restaurant_name.getD "" = "" ∨ notif.platform.getD "" = "" →
      handle_notification_event db notif results = db) ∧
    (matchedSubs db notif = [] → handle_notification_event db notif results = db) := by
  constructor
  · intro h
    unfold handle_notification_event
    rcases h with h | h <;> simp [h]
  · intro h
    by_cases hr : notif.restaurant_name.getD "" = ""
    · unfold handle_notification_event; simp [hr]
    · by_cases hp : notif.platform.getD "" = ""
      · unfold handle_notification_event; simp [hp]
      · have hcond : (decide (notif.restaurant_name.getD "" = "") ||
            decide (notif.platform.getD "" = "")) = false := by simp [hr, hp]
        simp only [matchedSubs, hcond, Bool.false_eq_true, if_false] at h
        simp only [handle_notification_event, hcond, Bool.false_eq_true, if_false]
        rw [h]
        rfl

/- Concrete data for the C10 witness. -/

def dbC10 : DB :=
  { requests := [], subscriptions :=
      [{ id := 14, request_id := 15, platform := "resy", active := true,
         search_date := "2025-06-01", search_time := "19:00", search_party_size := 2,
         restaurant_name := "Carbone", venue_id := none }],
    bookings := [], logs := [] }

def notifMissingC10 : Notif :=
  { restaurant_name := none, platform := some "resy",
    subject := some "Table available", email_id := some "m3" }

def notifNoMatchC10 : Notif :=
  { restaurant_name := some "Via Carota", platform := some "resy",
    subject := some "Table available", email_id := some "m4" }

def resultsC10 : SubscriptionR → BookOutcome := fun _ =>
  { success := false, resy_token := none, reservation_id := none,
    booked_time := none, raw := "" }

/-- Witness for the C10 theorem: a name-less event and a no-match event both
leave the concrete store untouched. -/
theorem handle_notification_skips_spec_witness :
    handle_notification_event dbC10 notifMissingC10 resultsC10 = dbC10 ∧
    handle_notification_event dbC10 notifNoMatchC10 resultsC10 = dbC10 :=
  ⟨(handle_notification_skips_spec dbC10 notifMissingC10 resultsC10).1 (Or.inl rfl),
   (handle_notification_skips_spec dbC10 notifNoMatchC10 resultsC10).2 (by decide)⟩
